import Mathlib

/-!
Verification of the toprs task-oriented programming core against its
natural-language specification. The Rust sources are shallowly embedded:
pure functions become Lean functions, methods taking mutable references
become functions returning the updated state, and fallible operations
return Except. Modules of the repository that are not included in the
source snapshot (the identifier allocator id.rs, the TaskValue merge
operations of task/mod.rs, the html event module with feedback merging,
and the component builders) are modelled from the specification; each
such definition is marked in its doc comment.
-/

deriving instance DecidableEq for Except

namespace Top

/-- Modelled from the spec: identifiers (id.rs is not in the source snapshot)
are opaque, totally ordered, equality comparable tokens; we model them as
naturals. -/
abbrev Id := Nat

/-- Modelled from the spec: the distinguished INVALID and root sentinel for
elements not yet allocated. -/
def Id.INVALID : Id := 0

/-- Modelled from the spec: the identifier allocator state (id.rs missing);
next issues a fresh identifier, monotonically distinct from all previously
issued ones in the same allocation scope. -/
structure Generator where
  next_id : Id
deriving DecidableEq, Repr

/-- Modelled from the spec: next returns a fresh identifier and advances the
allocator. -/
def Generator.next (g : Generator) : Id × Generator :=
  (g.next_id, Generator.mk (g.next_id + 1))

/-- Interaction event from the user (src/top/src/event.rs, enum Event). -/
inductive Event
  | Update (id : Id) (value : String)
  | Press (id : Id)
deriving DecidableEq, Repr

/-- Common error type for editors (src/top/src/editor/mod.rs, enum
EditorError): the single variant Invalid. -/
inductive EditorError
  | Invalid
deriving DecidableEq, Repr

/-- The task value lattice. Modelled from the spec: TaskValue lives in
task/mod.rs which is not in the source snapshot; one of Empty (no value),
Unstable (a value that may change) or Stable (a final value). -/
inductive TaskValue (α : Type)
  | Empty
  | Unstable (value : α)
  | Stable (value : α)
deriving DecidableEq, Repr

/-- Modelled from the spec: the Both-style merge used by
Parallel Both value via a.and(b) (task/mod.rs missing): the composite is
Stable iff both operands are Stable, Empty if either operand is Empty,
otherwise Unstable, pairing the payloads. -/
def TaskValue.and : TaskValue α → TaskValue β → TaskValue (α × β)
  | .Empty, _ => .Empty
  | _, .Empty => .Empty
  | .Stable a, .Stable b => .Stable (a, b)
  | .Stable a, .Unstable b => .Unstable (a, b)
  | .Unstable a, .Stable b => .Unstable (a, b)
  | .Unstable a, .Unstable b => .Unstable (a, b)

/-- Modelled from the spec: the Either-style merge used by
Parallel Either value via a.or(b) (task/mod.rs missing): the composite
takes the left operand if it is not Empty, else the right; ties favor the
left operand (left bias). -/
def TaskValue.or : TaskValue α → TaskValue α → TaskValue α
  | .Empty, b => b
  | .Unstable a, _ => .Unstable a
  | .Stable a, _ => .Stable a

/-- Task level errors. Modelled from the spec: TaskError lives in
task/mod.rs which is not in the source snapshot; the included sources
reference the Feedback variant, raised when feedback merging fails. -/
inductive TaskError
  | Feedback
deriving DecidableEq, Repr

/-- The value computation of Parallel with the Both marker
(src/top/src/task/parallel.rs lines 75 to 80): both sub values are
computed, errors propagate, and the results are merged with and. -/
def parallelBothValue (v1 : Except TaskError (TaskValue α))
    (v2 : Except TaskError (TaskValue β)) :
    Except TaskError (TaskValue (α × β)) := do
  let a ← v1
  let b ← v2
  pure (a.and b)

/-- The value computation of Parallel with the Either marker
(src/top/src/task/parallel.rs lines 154 to 159): both sub values are
computed, errors propagate, and the results are merged with or. -/
def parallelEitherValue (v1 : Except TaskError (TaskValue α))
    (v2 : Except TaskError (TaskValue α)) :
    Except TaskError (TaskValue α) := do
  let a ← v1
  let b ← v2
  pure (a.or b)

/-- Modelled from the spec: icons for the add and remove triggers (the html
icon module is not in the source snapshot). -/
inductive Icon
  | Plus
  | Minus
deriving DecidableEq, Repr

/-- Modelled from the spec: layout direction of a div (the html builder
module is not in the source snapshot). -/
inductive Layout
  | Row
  | Column
deriving DecidableEq, Repr

/-- Modelled from the spec: element tree payloads are opaque render output;
we model the output of the html builders (Div, IconButton) used by the
editors as a tree recording the identifiers and children, which is all the
core depends on. -/
inductive Html
  | text (s : String)
  | div (id : Option Id) (layout : Option Layout) (children : List Html)
  | iconButton (id : Id) (icon : Icon)

/-- Changes to the user interface in response to events
(src/top/src/event.rs, enum Feedback). -/
inductive Feedback
  | Insert (id : Id) (html : Html)
  | Replace (id : Id) (html : Html)
  | Append (id : Id) (html : Html)
  | Remove (id : Id)
  | Valid (id : Id)
  | Invalid (id : Id)

mutual
/-- Modelled from the spec: typed widget descriptions of the element tree
(the component module is not in the source snapshot); the included sources
use TextField and RadioGroup widgets. -/
inductive Widget
  | TextField (value : String)
  | RadioGroup (options : List Component)
/-- Modelled from the spec: a node of the element tree, a widget addressed
by its identifier (the component module is not in the source snapshot). -/
inductive Component
  | mk (id : Id) (widget : Widget)
end

/-- The identifier of a component (Component::id). -/
def Component.id : Component → Id
  | Component.mk i _ => i

/-- Primitive value editor parsing its value from a string
(src/top/src/editor/convert.rs, struct FromStrEditor): the allocated
identifier and the current value or error. -/
structure FromStrEditor (T : Type) where
  id : Id
  value : Except EditorError T

/-- The FromStr bound of the Rust code, shallowly embedded: a parse
function into the target type, wrapped into the editor's Result as the
source does with map_err to EditorError Invalid. -/
def parseResult (parse : String → Option T) (s : String) : Except EditorError T :=
  match parse s with
  | some v => Except.ok v
  | none => Except.error EditorError.Invalid

/-- FromStrEditor::new (src/top/src/editor/convert.rs lines 19 to 24): the
identifier is INVALID and the value is the result of parsing the empty
string. -/
def FromStrEditor.new (parse : String → Option T) : FromStrEditor T :=
  FromStrEditor.mk Id.INVALID (parseResult parse "")

/-- FromStrEditor::component (src/top/src/editor/convert.rs lines 34 to
45): renders a text field holding the current value (or the empty string
when invalid), allocates a fresh identifier for it with the generator, and
stores that identifier in the editor. -/
def FromStrEditor.component (toStr : T → String) (e : FromStrEditor T)
    (g : Generator) : Component × FromStrEditor T × Generator :=
  let widget := Widget.TextField
    (match e.value with
      | Except.ok v => toStr v
      | Except.error _ => "")
  let (i, g1) := g.next
  let c := Component.mk i widget
  (c, { e with id := c.id }, g1)

/-- FromStrEditor::on_event (src/top/src/editor/convert.rs lines 47 to
67): an Update whose identifier matches the editor's element parses the
payload; success stores the parsed value and answers Valid, failure stores
the Invalid error and answers Invalid; every other event is ignored. The
generator argument is unused, as in the source. -/
def FromStrEditor.on_event (parse : String → Option T) (e : FromStrEditor T)
    (event : Event) (_g : Generator) : FromStrEditor T × Option Feedback :=
  match event with
  | Event.Update i v =>
      if i = e.id then
        match parse v with
        | some value => ({ e with value := Except.ok value }, some (Feedback.Valid i))
        | none => ({ e with value := Except.error EditorError.Invalid }, some (Feedback.Invalid i))
      else (e, none)
  | _ => (e, none)

/-- FromStrEditor::read (src/top/src/editor/convert.rs lines 69 to 71):
returns the stored value or error. -/
def FromStrEditor.read (e : FromStrEditor T) : Except EditorError T :=
  e.value

/-- FromStrEditor::write (src/top/src/editor/convert.rs lines 73 to 75):
stores the written value as accepted. -/
def FromStrEditor.write (e : FromStrEditor T) (value : T) : FromStrEditor T :=
  { e with value := Except.ok value }

/-- Model of the FromStr instance of the unsigned integer types used with
FromStrEditor and ChoiceEditor: a nonempty all-digit string parses to the
denoted number, anything else fails. -/
def parseNat (s : String) : Option Nat :=
  if s.data ≠ [] ∧ s.data.all (fun c => c.isDigit)
  then some (s.data.foldl (fun acc c => acc * 10 + (c.toNat - 48)) 0)
  else none

/-- A row of the list editor (src/top/src/editor/container.rs, struct
Row): the row container identifier and the identifier of its remove
button. -/
structure Row where
  id : Id
  sub_id : Id
deriving DecidableEq, Repr

/-- Row::new (container.rs lines 212 to 218): allocates the container and
the remove button identifiers. -/
def Row.new (g : Generator) : Row × Generator :=
  let (i, g1) := g.next
  let (s, g2) := g1.next
  (Row.mk i s, g2)

/-- Row::as_html (container.rs lines 221 to 230): a row div holding the
child editor's html and its remove icon button. -/
def Row.as_html (asHtml : E → Html) (r : Row) (editor : E) : Html :=
  Html.div none (some Layout.Row) [asHtml editor, Html.iconButton r.sub_id Icon.Minus]

/-- Row::add_button (container.rs lines 232 to 234): the plus icon
button. -/
def Row.add_button (i : Id) : Html :=
  Html.iconButton i Icon.Plus

/-- The Editor trait as the list editor uses it
(src/top/src/editor/mod.rs and container.rs): a child editor type with
start, on_event and finish operations; the trait dispatch is embedded by
passing the operations explicitly. -/
structure EditorOps (E Inp Out : Type) where
  start : E → Option Inp → Generator → E × Generator
  onEvent : E → Event → Generator → E × Generator × Option Feedback
  finish : E → Except EditorError Out

/-- List editor (src/top/src/editor/container.rs, struct VecEditor): the
group and add button identifiers, the row bookkeeping, the child editors,
and the template cloned for new children. -/
structure VecEditor (E : Type) where
  group_id : Id
  add_id : Id
  choices : List Row
  editors : List E
  template : E

/-- VecEditor::start helper (container.rs lines 59 to 67): starts one
child editor per input value in order, threading the generator. -/
def startChildren (ops : EditorOps E Inp Out) (template : E) :
    List Inp → Generator → List E × Generator
  | [], g => ([], g)
  | input :: rest, g =>
      let (ed, g1) := ops.start template (some input) g
      let (eds, g2) := startChildren ops template rest g1
      (ed :: eds, g2)

/-- VecEditor::start helper (container.rs line 68): one Row per started
child editor, allocated after all children as in the source. -/
def mkRows : Nat → Generator → List Row × Generator
  | 0, g => ([], g)
  | n + 1, g =>
      let (row, g1) := Row.new g
      let (rows, g2) := mkRows n g1
      (row :: rows, g2)

/-- VecEditor::start (container.rs lines 56 to 69): allocates the group
and add button identifiers, starts one child per provided input (none for
a missing input), then creates one row per child. -/
def VecEditor.start (ops : EditorOps E Inp Out) (e : VecEditor E)
    (value : Option (List Inp)) (g : Generator) : VecEditor E × Generator :=
  let (gid, g1) := g.next
  let (aid, g2) := g1.next
  let (editors, g3) := startChildren ops e.template (value.getD []) g2
  let (rows, g4) := mkRows editors.length g3
  ({ e with group_id := gid, add_id := aid, editors := editors, choices := rows }, g4)

/-- The editors.iter_mut().find_map(..) routing of container.rs lines 100
to 103: each child in order handles the event until one returns feedback;
children visited before the claimant keep their updated state, and
children after the claimant are not visited. -/
def routeEvent (ops : EditorOps E Inp Out) :
    List E → Event → Generator → List E × Generator × Option Feedback
  | [], _, g => ([], g, none)
  | ed :: rest, event, g =>
      let (ed1, g1, fb) := ops.onEvent ed event g
      match fb with
      | some f => (ed1 :: rest, g1, some f)
      | none =>
          let (rest1, g2, fb1) := routeEvent ops rest event g1
          (ed1 :: rest1, g2, fb1)

/-- VecEditor::on_event (container.rs lines 71 to 105): a press on the add
button starts a new child from the template, allocates its row, pushes
both and answers Append on the group element; a press on some row's remove
button removes that row and the child at the same position and answers
Remove with the row container identifier (the source finds the position
with any and position plus unwrap; findIdx? fuses them, and the unwrap of
the found row is rendered with a default that is never reached); every
other event is routed to the children. -/
def VecEditor.on_event (ops : EditorOps E Inp Out) (asHtml : E → Html)
    (e : VecEditor E) (event : Event) (g : Generator) :
    VecEditor E × Generator × Option Feedback :=
  match event with
  | Event.Press i =>
      if i = e.add_id then
        let (editor, g1) := ops.start e.template none g
        let (row, g2) := Row.new g1
        let html := Row.as_html asHtml row editor
        ({ e with editors := e.editors ++ [editor], choices := e.choices ++ [row] },
          g2, some (Feedback.Append e.group_id html))
      else
        match e.choices.findIdx? (fun row => row.sub_id = i) with
        | some index =>
            let rid := ((e.choices.get? index).map Row.id).getD Id.INVALID
            ({ e with
                choices := e.choices.eraseIdx index
                editors := e.editors.eraseIdx index }, g, some (Feedback.Remove rid))
        | none =>
            let (eds, g1, fb) := routeEvent ops e.editors event g
            ({ e with editors := eds }, g1, fb)
  | _ =>
      let (eds, g1, fb) := routeEvent ops e.editors event g
      ({ e with editors := eds }, g1, fb)

/-- VecEditor::as_html (container.rs lines 34 to 47): the rows of the
children zipped with the row bookkeeping inside the group div, followed by
the add button. -/
def VecEditor.as_html (asHtml : E → Html) (e : VecEditor E) : Html :=
  let children := (e.editors.zip e.choices).map (fun p => Row.as_html asHtml p.2 p.1)
  let group := Html.div (some e.group_id) none children
  let button := Row.add_button e.add_id
  Html.div none none [group, button]

/-- Choice editor (src/top/src/editor/choice.rs, struct ChoiceEditor): the
radio group identifier, the started option viewers, and the currently
selected index if any. -/
structure ChoiceEditor (V : Type) where
  id : Id
  options : List V
  choice : Option Nat

/-- ChoiceEditor::new (choice.rs lines 18 to 26): starts one viewer per
option input; no selection is made. -/
def ChoiceEditor.new (vstart : Inp → V) (options : List Inp) : ChoiceEditor V :=
  ChoiceEditor.mk Id.INVALID (options.map vstart) none

/-- ChoiceEditor::on_event (choice.rs lines 47 to 58): an Update on the
editor's element parses the payload as an index; success records the
selection and answers Valid, failure answers Invalid leaving the prior
selection; other events are ignored. -/
def ChoiceEditor.on_event (e : ChoiceEditor V) (event : Event) :
    ChoiceEditor V × Option Feedback :=
  match event with
  | Event.Update i v =>
      if e.id = i then
        match parseNat v with
        | some n => ({ e with choice := some n }, some (Feedback.Valid i))
        | none => (e, some (Feedback.Invalid i))
      else (e, none)
  | _ => (e, none)

/-- ChoiceEditor::read (choice.rs lines 60 to 69): no selection fails with
Invalid; an out of range selection fails with Invalid; otherwise the
selected viewer's read value is returned (the Viewer read operation is
passed explicitly). -/
def ChoiceEditor.read (vread : V → Out) (e : ChoiceEditor V) :
    Except EditorError Out :=
  match e.choice with
  | none => Except.error EditorError.Invalid
  | some index =>
      match e.options.get? index with
      | some viewer => Except.ok (vread viewer)
      | none => Except.error EditorError.Invalid

namespace html

/-- Modelled from the spec: a single ui mutation instruction of the later
html event module (html/event.rs is not in the source snapshot), the same
six instructions as the event.rs feedback. -/
inductive Change
  | Insert (id : Id) (html : Html)
  | Replace (id : Id) (html : Html)
  | Append (id : Id) (html : Html)
  | Remove (id : Id)
  | Valid (id : Id)
  | Invalid (id : Id)

/-- Modelled from the spec: the feedback of the html event module is an
ordered list of ui mutation instructions (html/event.rs is not in the
source snapshot). -/
structure Feedback where
  changes : List Change

/-- Feedback::new, the empty feedback. -/
def Feedback.new : Feedback := Feedback.mk []

/-- The From instance Feedback::from(change), a singleton feedback. -/
def Feedback.ofChange (c : Change) : Feedback := Feedback.mk [c]

/-- The identifier a change instruction targets. -/
def Change.target : Change → Id
  | Change.Insert i _ => i
  | Change.Replace i _ => i
  | Change.Append i _ => i
  | Change.Remove i => i
  | Change.Valid i => i
  | Change.Invalid i => i

/-- Whether a change replaces a whole element. -/
def Change.isReplace : Change → Bool
  | Change.Replace _ _ => true
  | _ => false

/-- Modelled from the spec: the error of a failed feedback merge. -/
inductive MergeError
  | Incompatible

/-- Modelled from the spec: Feedback::merged_with (html/event.rs is not in
the source snapshot) concatenates the two instruction lists in left to
right branch order; structurally incompatible feedback, such as both
operands replacing the same element, is a merge error. -/
def Feedback.merged_with (a b : Feedback) : Except MergeError Feedback :=
  if a.changes.any (fun c => b.changes.any (fun d =>
      c.isReplace && d.isReplace && (c.target == d.target)))
  then Except.error MergeError.Incompatible
  else Except.ok (Feedback.mk (a.changes ++ b.changes))

end html

/-- The shared on_event body of the four Parallel impls
(src/top/src/task/parallel.rs lines 61 to 66, 92 to 97, 117 to 122 and 143
to 148, which are textually identical): the event is delivered to the left
sub-task and then to the right sub-task (each embedded as a state plus
handler), and the two feedbacks are merged, a merge failure becoming the
fatal TaskError Feedback. -/
def parallelOnEventWith (h1 : σ1 → Event → Except TaskError (σ1 × html.Feedback))
    (h2 : σ2 → Event → Except TaskError (σ2 × html.Feedback))
    (s : σ1 × σ2) (event : Event) :
    Except TaskError ((σ1 × σ2) × html.Feedback) := do
  let (s1, a) ← h1 s.1 event
  let (s2, b) ← h2 s.2 event
  match a.merged_with b with
  | Except.ok f => pure ((s1, s2), f)
  | Except.error _ => Except.error TaskError.Feedback

/-- Parallel Both on_event (parallel.rs lines 61 to 66). -/
def parallelBothOnEvent (h1 : σ1 → Event → Except TaskError (σ1 × html.Feedback))
    (h2 : σ2 → Event → Except TaskError (σ2 × html.Feedback))
    (s : σ1 × σ2) (event : Event) : Except TaskError ((σ1 × σ2) × html.Feedback) :=
  parallelOnEventWith h1 h2 s event

/-- Parallel Left on_event (parallel.rs lines 92 to 97). -/
def parallelLeftOnEvent (h1 : σ1 → Event → Except TaskError (σ1 × html.Feedback))
    (h2 : σ2 → Event → Except TaskError (σ2 × html.Feedback))
    (s : σ1 × σ2) (event : Event) : Except TaskError ((σ1 × σ2) × html.Feedback) :=
  parallelOnEventWith h1 h2 s event

/-- Parallel Right on_event (parallel.rs lines 117 to 122). -/
def parallelRightOnEvent (h1 : σ1 → Event → Except TaskError (σ1 × html.Feedback))
    (h2 : σ2 → Event → Except TaskError (σ2 × html.Feedback))
    (s : σ1 × σ2) (event : Event) : Except TaskError ((σ1 × σ2) × html.Feedback) :=
  parallelOnEventWith h1 h2 s event

/-- Parallel Either on_event (parallel.rs lines 143 to 148). -/
def parallelEitherOnEvent (h1 : σ1 → Event → Except TaskError (σ1 × html.Feedback))
    (h2 : σ2 → Event → Except TaskError (σ2 × html.Feedback))
    (s : σ1 × σ2) (event : Event) : Except TaskError ((σ1 × σ2) × html.Feedback) :=
  parallelOnEventWith h1 h2 s event

/-- Display colors of viewers (src/top/src/task/view/mod.rs, enum
Color). -/
inductive Color
  | Black
  | White
  | Red
  | Orange
  | Yellow
  | Green
  | Blue
  | Purple
  | Pink
  | Brown
deriving DecidableEq, Repr

/-- Viewer task state (src/top/src/task/view/mod.rs, struct InnerView):
the viewer's own element identifier, the bound share, and the display
color; the phantom type parameter of the source is dropped and the uuid
identities are modelled by the same identifier type. -/
structure InnerView (S : Type) where
  id : Id
  share : S
  color : Color

/-- A degenerate child editor instantiation of the Editor operations, used
to evaluate the list editor on concrete inputs: it carries no state and
never claims an event. -/
def unitOps : EditorOps Unit Unit Unit where
  start := fun _ _ g => ((), g)
  onEvent := fun _ _ g => ((), g, none)
  finish := fun _ => Except.ok ()

/-- InnerView::refresh (src/top/src/task/view/mod.rs lines 148 to 158):
when the bound share's identity equals the refreshed identity, answer a
single Replace of the viewer's own element with its re-rendered html;
otherwise answer empty feedback. The share identity accessor and the
rendering (the share module is not in the source snapshot, and to_html is
external rendering) are passed as functions. -/
def InnerView.refresh (shareId : S → Id) (toHtml : InnerView S → Html)
    (v : InnerView S) (i : Id) : html.Feedback :=
  if shareId v.share = i then
    html.Feedback.ofChange (html.Change.Replace v.id (toHtml v))
  else
    html.Feedback.new

end Top

namespace Top

/-- Claim C1: for the Both parallel combinator, the merged task value of
sub-task values a and b is Stable exactly when both are Stable (pairing the
payloads), Empty exactly when either is Empty, and Unstable in every
remaining case; in particular merging Empty with any b gives Empty and
merging Stable x with Stable y gives Stable (x, y). -/
theorem parallel_both_value_merge {α β : Type} :
    (∀ (a : TaskValue α) (b : TaskValue β),
      parallelBothValue (Except.ok a) (Except.ok b) = Except.ok (a.and b))
    ∧ (∀ (b : TaskValue β), (TaskValue.Empty : TaskValue α).and b = .Empty)
    ∧ (∀ (a : TaskValue α), a.and (TaskValue.Empty : TaskValue β) = .Empty)
    ∧ (∀ (x : α) (y : β),
      (TaskValue.Stable x).and (TaskValue.Stable y) = .Stable (x, y))
    ∧ (∀ (a : TaskValue α) (b : TaskValue β) (x : α) (y : β),
      a.and b = .Stable (x, y) ↔ (a = .Stable x ∧ b = .Stable y))
    ∧ (∀ (a : TaskValue α) (b : TaskValue β),
      a.and b = .Empty ↔ (a = .Empty ∨ b = .Empty))
    ∧ (∀ (x : α) (y : β),
      (TaskValue.Stable x).and (TaskValue.Unstable y) = .Unstable (x, y)
      ∧ (TaskValue.Unstable x).and (TaskValue.Stable y) = .Unstable (x, y)
      ∧ (TaskValue.Unstable x).and (TaskValue.Unstable y) = .Unstable (x, y)) := by
  refine ⟨fun a b => rfl, fun b => ?_, fun a => ?_, fun x y => rfl, ?_, ?_, fun x y => ⟨rfl, rfl, rfl⟩⟩
  · cases b <;> rfl
  · cases a <;> rfl
  · intro a b x y
    constructor
    · intro h
      cases a <;> cases b <;> simp [TaskValue.and] at h <;> simp [h]
    · rintro ⟨rfl, rfl⟩
      rfl
  · intro a b
    constructor
    · intro h
      cases a <;> cases b <;> simp [TaskValue.and] at h <;> simp
    · intro h
      rcases h with rfl | rfl
      · cases b <;> rfl
      · cases a <;> rfl

/-- Claim C4: for the Either parallel combinator, the merged task value of
sub-task values a and b is a when a is not Empty and b otherwise; when both
operands are non-Empty the left operand wins, so merging Stable x with
Stable y gives Stable x and merging Empty with Unstable y gives
Unstable y. -/
theorem parallel_either_value_merge {α : Type} :
    (∀ (a b : TaskValue α),
      parallelEitherValue (Except.ok a) (Except.ok b) = Except.ok (a.or b))
    ∧ (∀ (b : TaskValue α), (TaskValue.Empty : TaskValue α).or b = b)
    ∧ (∀ (x : α) (b : TaskValue α),
      (TaskValue.Unstable x).or b = .Unstable x
      ∧ (TaskValue.Stable x).or b = .Stable x)
    ∧ (∀ (x y : α), (TaskValue.Stable x).or (TaskValue.Stable y) = .Stable x)
    ∧ (∀ (y : α), (TaskValue.Empty : TaskValue α).or (TaskValue.Unstable y) = .Unstable y) := by
  exact ⟨fun a b => rfl, fun b => rfl, fun x b => ⟨rfl, rfl⟩, fun x y => rfl, fun y => rfl⟩

/-- Claim C9: for every primitive value editor and every value v of its
target type, writing v and then reading returns Ok v. -/
theorem from_str_editor_write_read {T : Type} :
    ∀ (e : FromStrEditor T) (v : T), (e.write v).read = Except.ok v :=
  fun _ _ => rfl

/-- Claim C2, counterexample: an editor holding the accepted value 42
receives an Update whose payload fails to parse; the feedback is Invalid
as the claim says, but read does not return the previously accepted value:
the stored value is overwritten with the Invalid error. -/
theorem from_str_invalid_update_counterexample :
    parseNat "abc" = none
    ∧ (FromStrEditor.on_event parseNat (FromStrEditor.mk 1 (Except.ok 42))
        (Event.Update 1 "abc") (Generator.mk 5)).2 = some (Feedback.Invalid 1)
    ∧ ¬ ((FromStrEditor.on_event parseNat (FromStrEditor.mk 1 (Except.ok 42))
        (Event.Update 1 "abc") (Generator.mk 5)).1.read = Except.ok 42) := by
  refine ⟨by decide, rfl, by decide⟩

/-- Claim C2, amended: delivering an Update addressed to the editor's
element whose payload fails to parse returns Invalid feedback and resets
the stored value to the Invalid error, so read afterwards fails with
Invalid instead of returning the previously accepted value. -/
theorem from_str_editor_invalid_update {T : Type}
    (parse : String → Option T) (e : FromStrEditor T) (i : Id) (v : String)
    (g : Generator) (hid : i = e.id) (hp : parse v = none) :
    (e.on_event parse (Event.Update i v) g).2 = some (Feedback.Invalid i)
    ∧ (e.on_event parse (Event.Update i v) g).1.value = Except.error EditorError.Invalid
    ∧ (e.on_event parse (Event.Update i v) g).1.read = Except.error EditorError.Invalid := by
  simp [FromStrEditor.on_event, FromStrEditor.read, hid, hp]

/-- Claim C2, witness for the amended theorem at a concrete input. -/
theorem from_str_editor_invalid_update_witness :
    (FromStrEditor.on_event parseNat (FromStrEditor.mk 1 (Except.ok 42))
        (Event.Update 1 "abc") (Generator.mk 5)).2 = some (Feedback.Invalid 1)
    ∧ (FromStrEditor.on_event parseNat (FromStrEditor.mk 1 (Except.ok 42))
        (Event.Update 1 "abc") (Generator.mk 5)).1.value = Except.error EditorError.Invalid
    ∧ (FromStrEditor.on_event parseNat (FromStrEditor.mk 1 (Except.ok 42))
        (Event.Update 1 "abc") (Generator.mk 5)).1.read = Except.error EditorError.Invalid :=
  from_str_editor_invalid_update parseNat (FromStrEditor.mk 1 (Except.ok 42))
    1 "abc" (Generator.mk 5) rfl (by decide)

/-- Claim C3, counterexample: calling FromStrEditor::component twice on an
editor whose input did not change returns components with different
identifiers, and overwrites the identifier stored in the editor: the
component method reallocates on every call. -/
theorem component_reallocates_counterexample :
    (let e : FromStrEditor Nat := FromStrEditor.mk 5 (Except.ok 1)
     let g : Generator := Generator.mk 10
     let r1 := FromStrEditor.component Nat.repr e g
     let r2 := FromStrEditor.component Nat.repr r1.2.1 r1.2.2
     r1.1.id = 10 ∧ r2.1.id = 11 ∧ r2.1.id ≠ r1.1.id ∧ r2.2.1.id ≠ r1.2.1.id) := by
  refine ⟨rfl, rfl, by decide, by decide⟩

/-- Helper: mkRows creates exactly the requested number of rows. -/
theorem mkRows_length (n : Nat) : ∀ g : Generator, ((mkRows n g).1).length = n := by
  induction n with
  | zero => intro g; rfl
  | succ k ih =>
      intro g
      show ((mkRows k (Row.new g).2).1).length + 1 = k + 1
      rw [ih]

/-- Helper: routing an event through the children never changes how many
children there are. -/
theorem routeEvent_length {E Inp Out : Type} (ops : EditorOps E Inp Out) :
    ∀ (l : List E) (event : Event) (g : Generator),
      ((routeEvent ops l event g).1).length = l.length := by
  intro l
  induction l with
  | nil => intro event g; rfl
  | cons ed rest ih =>
      intro event g
      rcases h : ops.onEvent ed event g with ⟨ed1, g1, fb⟩
      cases fb with
      | some f => simp [routeEvent, h]
      | none => simp [routeEvent, h, ih]

/-- Helper: the rendered rows depend only on the rendered child html and
the row bookkeeping. -/
theorem zipRows_map_eq {E : Type} (f : E → Html) :
    ∀ (l : List E) (cs : List Row),
      (l.zip cs).map (fun p => Row.as_html f p.2 p.1)
        = ((l.map f).zip cs).map
            (fun p => Html.div none (some Layout.Row)
              [p.1, Html.iconButton p.2.sub_id Icon.Minus]) := by
  intro l
  induction l with
  | nil => intro cs; rfl
  | cons a l ih =>
      intro cs
      cases cs with
      | nil => rfl
      | cons c cs =>
          show Row.as_html f c a :: (l.zip cs).map (fun p => Row.as_html f p.2 p.1)
            = Html.div none (some Layout.Row) [f a, Html.iconButton c.sub_id Icon.Minus]
              :: ((l.map f).zip cs).map
                (fun p => Html.div none (some Layout.Row)
                  [p.1, Html.iconButton p.2.sub_id Icon.Minus])
          rw [ih]
          rfl

/-- Claim C3, amended: event handling never changes an already-allocated
identifier (a FromStrEditor keeps its element identifier across every
event, and the list editor keeps its group, add button and row identifiers
across every Update event), and re-rendering through as_html returns the
same output, hence the same identifiers, whenever the identifier-carrying
state and the rendered child html are unchanged; however
FromStrEditor::component allocates and stores a fresh identifier on every
call, so identifier stability across renders holds only under the
discipline that component is called once per editor instance. -/
theorem editor_identifier_stability {T E Inp Out : Type} (ops : EditorOps E Inp Out)
    (asHtml : E → Html) :
    (∀ (parse : String → Option T) (e : FromStrEditor T) (event : Event) (g : Generator),
      ((FromStrEditor.on_event parse e event g).1).id = e.id)
    ∧ (∀ (e : VecEditor E) (i : Id) (v : String) (g : Generator),
      ((VecEditor.on_event ops asHtml e (Event.Update i v) g).1).group_id = e.group_id
      ∧ ((VecEditor.on_event ops asHtml e (Event.Update i v) g).1).add_id = e.add_id
      ∧ ((VecEditor.on_event ops asHtml e (Event.Update i v) g).1).choices = e.choices)
    ∧ (∀ (f1 f2 : E → Html) (e1 e2 : VecEditor E),
      e1.group_id = e2.group_id → e1.add_id = e2.add_id → e1.choices = e2.choices →
      e1.editors.map f1 = e2.editors.map f2 →
      VecEditor.as_html f1 e1 = VecEditor.as_html f2 e2) := by
  refine ⟨?_, ?_, ?_⟩
  · intro parse e event g
    cases event with
    | Update i v =>
        simp only [FromStrEditor.on_event]
        split
        · split <;> rfl
        · rfl
    | Press i => rfl
  · intro e i v g
    exact ⟨rfl, rfl, rfl⟩
  · intro f1 f2 e1 e2 h1 h2 h3 h4
    simp only [VecEditor.as_html, Row.add_button]
    rw [zipRows_map_eq, zipRows_map_eq, h1, h2, h3, h4]

/-- Claim C3, witness for the amended theorem: two list editor states that
agree on every identifier and render their children identically render to
the same html even though their child states differ. -/
theorem editor_identifier_stability_witness :
    VecEditor.as_html (fun _ => Html.text "a")
      (VecEditor.mk 1 2 [Row.mk 3 4] [(5 : Nat)] 0)
      = VecEditor.as_html (fun _ => Html.text "a")
        (VecEditor.mk 1 2 [Row.mk 3 4] [(6 : Nat)] 0) :=
  (@editor_identifier_stability Nat Nat Unit Unit
      (EditorOps.mk (fun (e : Nat) (_ : Option Unit) g => (e, g))
        (fun e _ g => (e, g, none)) (fun _ => Except.ok ()))
      (fun _ => Html.text "a")).2.2
    (fun _ => Html.text "a") (fun _ => Html.text "a")
    (VecEditor.mk 1 2 [Row.mk 3 4] [(5 : Nat)] 0)
    (VecEditor.mk 1 2 [Row.mk 3 4] [(6 : Nat)] 0)
    rfl rfl rfl rfl

/-- Claim C6: a press on the add trigger starts exactly one new child from
the template, allocates its row identifiers at the allocator frontier
(hence distinct from every identifier allocated before), pushes the child
and the row together and answers Append on the group element; a press on
row i's remove trigger removes exactly that row and the child at the same
position, answers exactly one Remove carrying that row's container
identifier, decreases the child count by one and leaves the surviving
rows, and their identifiers, untouched. -/
theorem vec_editor_add_remove {E Inp Out : Type} (ops : EditorOps E Inp Out)
    (asHtml : E → Html) (e : VecEditor E) (g : Generator) :
    (∀ ed g1, ops.start e.template none g = (ed, g1) →
      VecEditor.on_event ops asHtml e (Event.Press e.add_id) g =
        ({ e with
            editors := e.editors ++ [ed]
            choices := e.choices ++ [Row.mk g1.next_id (g1.next_id + 1)] },
          Generator.mk (g1.next_id + 2),
          some (Feedback.Append e.group_id
            (Row.as_html asHtml (Row.mk g1.next_id (g1.next_id + 1)) ed))))
    ∧ (∀ ed g1, ops.start e.template none g = (ed, g1) →
      (∀ r ∈ e.choices, r.id < g1.next_id ∧ r.sub_id < g1.next_id) →
      ∀ r ∈ e.choices, r.id ≠ g1.next_id ∧ r.id ≠ g1.next_id + 1
        ∧ r.sub_id ≠ g1.next_id ∧ r.sub_id ≠ g1.next_id + 1)
    ∧ (∀ (sid : Id) (i : Nat) (row : Row), sid ≠ e.add_id →
      e.choices.findIdx? (fun r => r.sub_id = sid) = some i →
      e.choices.get? i = some row →
      e.editors.length = e.choices.length →
      VecEditor.on_event ops asHtml e (Event.Press sid) g =
        ({ e with
            choices := e.choices.eraseIdx i
            editors := e.editors.eraseIdx i }, g, some (Feedback.Remove row.id))
      ∧ (e.choices.eraseIdx i).length + 1 = e.choices.length
      ∧ (e.editors.eraseIdx i).length + 1 = e.editors.length
      ∧ e.choices.eraseIdx i = e.choices.take i ++ e.choices.drop (i + 1)) := by
  refine ⟨?_, ?_, ?_⟩
  · intro ed g1 hstart
    simp [VecEditor.on_event, hstart, Row.new, Generator.next]
  · intro ed g1 hstart hlt r hr
    rcases hlt r hr with ⟨hid, hsub⟩
    exact ⟨Nat.ne_of_lt hid, Nat.ne_of_lt (Nat.lt_succ_of_lt hid),
      Nat.ne_of_lt hsub, Nat.ne_of_lt (Nat.lt_succ_of_lt hsub)⟩
  · intro sid i row hne hfind hget hlen
    rcases List.findIdx?_eq_some_iff_getElem.mp hfind with ⟨hi, hpi, hmin⟩
    have hie : i < e.editors.length := hlen ▸ hi
    rw [List.get?_eq_getElem?] at hget
    refine ⟨?_, ?_, ?_, List.eraseIdx_eq_take_drop_succ e.choices i⟩
    · simp [VecEditor.on_event, hne, hfind, hget]
    · exact List.length_eraseIdx_add_one hi
    · exact List.length_eraseIdx_add_one hie

/-- Claim C6, witness: a two-row list editor; pressing the add button
appends a fresh row 16 17 and answers Append on the group, the fresh
identifiers differing from every live row identifier; pressing row 0's
remove button (identifier 13) answers Remove 12 and shrinks both vectors
to one entry. -/
theorem vec_editor_add_remove_witness :
    (VecEditor.on_event unitOps (fun _ => Html.text "")
      (VecEditor.mk 10 11 [Row.mk 12 13, Row.mk 14 15] [(), ()] ())
      (Event.Press 11) (Generator.mk 16)).2.2
      = some (Feedback.Append 10
          (Row.as_html (fun _ => Html.text "") (Row.mk 16 17) ()))
    ∧ (∀ r ∈ [Row.mk 12 13, Row.mk 14 15], r.id ≠ 16 ∧ r.id ≠ 17
        ∧ r.sub_id ≠ 16 ∧ r.sub_id ≠ 17)
    ∧ (VecEditor.on_event unitOps (fun _ => Html.text "")
      (VecEditor.mk 10 11 [Row.mk 12 13, Row.mk 14 15] [(), ()] ())
      (Event.Press 13) (Generator.mk 16)).2.2 = some (Feedback.Remove 12)
    ∧ ((VecEditor.on_event unitOps (fun _ => Html.text "")
      (VecEditor.mk 10 11 [Row.mk 12 13, Row.mk 14 15] [(), ()] ())
      (Event.Press 13) (Generator.mk 16)).1).choices.length = 1 := by
  have h := vec_editor_add_remove unitOps (fun _ => Html.text "")
    (VecEditor.mk 10 11 [Row.mk 12 13, Row.mk 14 15] [(), ()] ())
    (Generator.mk 16)
  have hrem := h.2.2 13 0 (Row.mk 12 13) (by decide) (by decide) rfl rfl
  refine ⟨?_, h.2.1 () (Generator.mk 16) rfl (by decide), ?_, ?_⟩
  · rw [h.1 () (Generator.mk 16) rfl]
  · rw [hrem.1]
  · rw [hrem.1]
    rfl

/-- Claim C10: the child editors and the row bookkeeping stay aligned:
start creates exactly one row per started child, and every on_event
preserves equality of the two lengths (the add press pushes one child and
one row together, the remove press erases both at the found index, and
routed events touch neither vector's length). -/
theorem vec_editor_lengths_invariant {E Inp Out : Type} (ops : EditorOps E Inp Out)
    (asHtml : E → Html) :
    (∀ (e : VecEditor E) (v : Option (List Inp)) (g : Generator),
      ((VecEditor.start ops e v g).1).choices.length =
        ((VecEditor.start ops e v g).1).editors.length)
    ∧ (∀ (e : VecEditor E) (event : Event) (g : Generator),
      e.choices.length = e.editors.length →
      ((VecEditor.on_event ops asHtml e event g).1).choices.length =
        ((VecEditor.on_event ops asHtml e event g).1).editors.length) := by
  constructor
  · intro e v g
    exact mkRows_length _ _
  · intro e event g h
    cases event with
    | Update i v =>
        show e.choices.length = ((routeEvent ops e.editors (Event.Update i v) g).1).length
        rw [routeEvent_length, h]
    | Press i =>
        by_cases hadd : i = e.add_id
        · subst hadd
          simp [VecEditor.on_event, h]
        · rcases hf : e.choices.findIdx? (fun r => r.sub_id = i) with _ | idx
          · simp only [VecEditor.on_event, if_neg hadd, hf]
            show e.choices.length = ((routeEvent ops e.editors (Event.Press i) g).1).length
            rw [routeEvent_length, h]
          · rcases List.findIdx?_eq_some_iff_getElem.mp hf with ⟨hi, hpi, hmin⟩
            have hie : idx < e.editors.length := by omega
            simp only [VecEditor.on_event, if_neg hadd, hf]
            have h1 := List.length_eraseIdx_add_one hi
            have h2 := List.length_eraseIdx_add_one hie
            show (e.choices.eraseIdx idx).length = (e.editors.eraseIdx idx).length
            omega

/-- Claim C10, witness: a one-row list editor with aligned vectors keeps
them aligned after the add press. -/
theorem vec_editor_lengths_invariant_witness :
    ((VecEditor.on_event unitOps (fun _ => Html.text "")
      (VecEditor.mk 1 2 [Row.mk 3 4] [()] ()) (Event.Press 2) (Generator.mk 5)).1).choices.length
      = ((VecEditor.on_event unitOps (fun _ => Html.text "")
        (VecEditor.mk 1 2 [Row.mk 3 4] [()] ()) (Event.Press 2) (Generator.mk 5)).1).editors.length :=
  (vec_editor_lengths_invariant unitOps (fun _ => Html.text "")).2
    (VecEditor.mk 1 2 [Row.mk 3 4] [()] ()) (Event.Press 2) (Generator.mk 5) rfl

/-- Claim C7: the choice editor's read fails with Invalid when no selection
exists, also on a freshly started editor, and when the selected index is
out of range; after an Update on its element carrying a parseable in-range
index it returns the selected option's value. -/
theorem choice_editor_read_selection {V Inp Out : Type} (vread : V → Out) :
    (∀ (vstart : Inp → V) (options : List Inp),
      (ChoiceEditor.new vstart options).read vread = Except.error EditorError.Invalid)
    ∧ (∀ (i : Id) (options : List V),
      (ChoiceEditor.mk i options none).read vread = Except.error EditorError.Invalid)
    ∧ (∀ (i : Id) (options : List V) (n : Nat), options.length ≤ n →
      (ChoiceEditor.mk i options (some n)).read vread = Except.error EditorError.Invalid)
    ∧ (∀ (e : ChoiceEditor V) (i : Id) (v : String) (n : Nat) (viewer : V),
      e.id = i → parseNat v = some n → e.options.get? n = some viewer →
      ((e.on_event (Event.Update i v)).1).read vread = Except.ok (vread viewer)
      ∧ (e.on_event (Event.Update i v)).2 = some (Feedback.Valid i)) := by
  refine ⟨fun vstart options => rfl, fun i options => rfl, ?_, ?_⟩
  · intro i options n h
    simp only [ChoiceEditor.read]
    rw [List.get?_eq_none.mpr h]
  · intro e i v n viewer hid hp hget
    rw [List.get?_eq_getElem?] at hget
    simp [ChoiceEditor.on_event, ChoiceEditor.read, hid, hp, hget]

/-- Claim C7, witness: three options, a fresh editor fails with Invalid, an
out of range selection fails with Invalid, and after Update "2" the third
option's value is read. -/
theorem choice_editor_read_selection_witness :
    (ChoiceEditor.new (fun (n : Nat) => n) [100, 200, 300]).read (fun v => v)
      = Except.error EditorError.Invalid
    ∧ (ChoiceEditor.mk 7 [100, 200, 300] (some 5)).read (fun v => v)
      = Except.error EditorError.Invalid
    ∧ ((ChoiceEditor.mk 7 [100, 200, 300] none).on_event (Event.Update 7 "2")).1.read (fun v => v)
      = Except.ok 300 := by
  have h := @choice_editor_read_selection Nat Nat Nat (fun v => v)
  exact ⟨h.1 (fun n => n) [100, 200, 300],
    h.2.2.1 7 [100, 200, 300] 5 (by decide),
    (h.2.2.2 (ChoiceEditor.mk 7 [100, 200, 300] none) 7 "2" 2 300 rfl (by decide) rfl).1⟩

/-- Claim C8: a viewer's refresh is a no-op (empty feedback, hence no
Replace) when the refreshed identity differs from the bound share's
identity, and answers exactly one Replace targeting the viewer's own
element when they match. -/
theorem inner_view_refresh_matches {S : Type} (shareId : S → Id)
    (toHtml : InnerView S → Html) (v : InnerView S) (i : Id) :
    (shareId v.share = i →
      InnerView.refresh shareId toHtml v i =
        html.Feedback.mk [html.Change.Replace v.id (toHtml v)]
      ∧ (InnerView.refresh shareId toHtml v i).changes.length = 1)
    ∧ (shareId v.share ≠ i →
      InnerView.refresh shareId toHtml v i = html.Feedback.new
      ∧ (InnerView.refresh shareId toHtml v i).changes = []) := by
  constructor
  · intro h
    simp [InnerView.refresh, h, html.Feedback.ofChange]
  · intro h
    simp [InnerView.refresh, h, html.Feedback.new]

/-- Claim C8, witness: a viewer bound to share identity 2 answers one
Replace of its own element on refresh(2) and empty feedback on
refresh(3). -/
theorem inner_view_refresh_matches_witness :
    InnerView.refresh (fun s => s) (fun _ => Html.text "x")
      (InnerView.mk 1 (2 : Nat) Color.Black) 2 =
      html.Feedback.mk [html.Change.Replace 1 (Html.text "x")]
    ∧ InnerView.refresh (fun s => s) (fun _ => Html.text "x")
      (InnerView.mk 1 (2 : Nat) Color.Black) 3 = html.Feedback.new :=
  ⟨(inner_view_refresh_matches (fun s => s) (fun _ => Html.text "x")
      (InnerView.mk 1 (2 : Nat) Color.Black) 2).1 rfl |>.1,
   (inner_view_refresh_matches (fun s => s) (fun _ => Html.text "x")
      (InnerView.mk 1 (2 : Nat) Color.Black) 3).2 (by decide) |>.1⟩

/-- Claim C5: all four parallel combinators deliver an event to both
sub-tasks, keeping both updated states; the two feedbacks are merged by
concatenation in left to right branch order; a feedback merge failure is
reported as the fatal TaskError Feedback. -/
theorem parallel_on_event_routes_both {σ1 σ2 : Type}
    (h1 : σ1 → Event → Except TaskError (σ1 × html.Feedback))
    (h2 : σ2 → Event → Except TaskError (σ2 × html.Feedback))
    (s : σ1 × σ2) (event : Event) (s1 : σ1) (s2 : σ2) (a b : html.Feedback)
    (ha : h1 s.1 event = Except.ok (s1, a)) (hb : h2 s.2 event = Except.ok (s2, b)) :
    (∀ f, a.merged_with b = Except.ok f → f.changes = a.changes ++ b.changes)
    ∧ (∀ f, a.merged_with b = Except.ok f →
      parallelBothOnEvent h1 h2 s event = Except.ok ((s1, s2), f)
      ∧ parallelLeftOnEvent h1 h2 s event = Except.ok ((s1, s2), f)
      ∧ parallelRightOnEvent h1 h2 s event = Except.ok ((s1, s2), f)
      ∧ parallelEitherOnEvent h1 h2 s event = Except.ok ((s1, s2), f))
    ∧ (∀ err, a.merged_with b = Except.error err →
      parallelBothOnEvent h1 h2 s event = Except.error TaskError.Feedback
      ∧ parallelLeftOnEvent h1 h2 s event = Except.error TaskError.Feedback
      ∧ parallelRightOnEvent h1 h2 s event = Except.error TaskError.Feedback
      ∧ parallelEitherOnEvent h1 h2 s event = Except.error TaskError.Feedback) := by
  refine ⟨?_, ?_, ?_⟩
  · intro f hf
    unfold html.Feedback.merged_with at hf
    by_cases hc : a.changes.any (fun c => b.changes.any (fun d =>
        c.isReplace && d.isReplace && (c.target == d.target)))
    · simp [hc] at hf
    · simp [hc] at hf
      simp [← hf]
  · intro f hf
    have : parallelOnEventWith h1 h2 s event = Except.ok ((s1, s2), f) := by
      simp [parallelOnEventWith, ha, hb, hf, bind, Except.bind, pure, Except.pure]
    exact ⟨this, this, this, this⟩
  · intro err hf
    have : parallelOnEventWith h1 h2 s event = Except.error TaskError.Feedback := by
      simp [parallelOnEventWith, ha, hb, hf, bind, Except.bind, pure, Except.pure]
    exact ⟨this, this, this, this⟩

/-- Claim C5, witness: two handlers answering Valid on distinct elements;
the combinators answer the concatenated feedback with both states. -/
theorem parallel_on_event_routes_both_witness :
    parallelBothOnEvent
      (fun (s : Nat) _ => Except.ok (s + 1, html.Feedback.mk [html.Change.Valid 1]))
      (fun (s : Nat) _ => Except.ok (s + 2, html.Feedback.mk [html.Change.Valid 2]))
      (10, 20) (Event.Press 1) =
      Except.ok ((11, 22), html.Feedback.mk [html.Change.Valid 1, html.Change.Valid 2]) := by
  have h := parallel_on_event_routes_both
    (fun (s : Nat) _ => Except.ok (s + 1, html.Feedback.mk [html.Change.Valid 1]))
    (fun (s : Nat) _ => Except.ok (s + 2, html.Feedback.mk [html.Change.Valid 2]))
    (10, 20) (Event.Press 1) 11 22
    (html.Feedback.mk [html.Change.Valid 1]) (html.Feedback.mk [html.Change.Valid 2])
    rfl rfl
  exact (h.2.1 (html.Feedback.mk [html.Change.Valid 1, html.Change.Valid 2]) rfl).1

end Top
